import Mathlib

/-!
Shallow embedding of `src/actions/nft.rs` (`subscribe_to_nft_events` and its
event handlers) from the teleport-gramine-rs repository.

The Rust loop subscribes to chain logs, decodes each into an `NFTEvents`
variant, and handles three variants: `RedeemTweet`, `NewTokenData`
(mint confirmation) and `Transfer` (ownership transfer).  External calls
(safety oracle, user lookup, tweet publication, postgres) are modelled by an
environment supplied per event; postgres tables (`NftIndex`, `RedeemedIndex`,
`User`) and the TeleportDB (`crate::db`) state are explicit list-based states.
A `?` in the Rust maps to the `err` outcome (the error propagates out of
`subscribe_to_nft_events`, terminating the loop); an `unwrap`/`expect` on a
missing value maps to the `panicked` outcome.
-/

namespace Teleport

/-- The lowercase hex rendering of the zero address, as compared against in
`subscribe_to_nft_events` (lines 151 and 153 of nft.rs). -/
def zeroAddress : String := "0x0000000000000000000000000000000000000000"

/-- The bound (i32::MAX) under which `tokenId.to_string().parse::<i32>()`
succeeds for an unsigned `tokenId`. -/
def maxI32 : Nat := 2147483647

/-- Model of `redeem.tokenId.to_string().parse::<i32>()` (nft.rs lines 83 and
137): the decimal string of an unsigned 256-bit integer parses as `i32`
exactly when the value is at most `i32::MAX`; otherwise `parse` returns `Err`
and the `unwrap` panics. -/
def parseI32 (n : Nat) : Option Int :=
  if n ≤ maxI32 then some (Int.ofNat n) else none

/-- A row of the postgres `NftIndex` table (the live ownership index): columns
`tokenId`, `userId`, `twitterUserName` as read/written in nft.rs. -/
structure NftRow where
  tokenId : Int
  userId : String
  twitterUserName : String
  deriving Repr, DecidableEq

/-- A row of the postgres `RedeemedIndex` table, with the columns of the
INSERT at nft.rs lines 99-103. -/
structure RedeemedRow where
  id : String
  creatorUserId : String
  tokenId : Int
  tweetId : String
  twitterUserName : String
  safeguard : String
  content : String
  deriving Repr, DecidableEq

/-- A row of the postgres `User` table as touched by nft.rs: its `id` and the
`haveBeenRedeemed` counter. -/
structure UserRow where
  id : String
  haveBeenRedeemed : Int
  deriving Repr, DecidableEq

/-- The postgres state: the three tables nft.rs reads or writes. -/
structure PgState where
  nftIndex : List NftRow
  redeemedIndex : List RedeemedRow
  users : List UserRow
  deriving Repr, DecidableEq

/-- Modelled from the spec: a `PendingMint` record of the TeleportDB
(`crate::db` is not under src/).  Identity: the transaction hash of the mint
submission; attributes: creator metadata and intended recipient. -/
structure PendingMint where
  txHash : String
  creatorUserId : String
  recipient : String
  deriving Repr, DecidableEq

/-- Modelled from the spec: a confirmed `Token` row of the TeleportDB as
created by promotion (`owner = recipient`, `redeemed = false`). -/
structure Token where
  tokenId : String
  owner : String
  redeemed : Bool
  deriving Repr, DecidableEq

/-- The TeleportDB (`crate::db::TeleportDB`) state as used by nft.rs:
pending mints and tokens (modelled from the spec, the implementation is not
under src/) and the tweets recorded by `add_tweet`. -/
structure DbState where
  pendingMints : List PendingMint
  tokens : List Token
  tweets : List (String × String)
  deriving Repr, DecidableEq

/-- The combined mutable state the event handlers touch. -/
structure State where
  tdb : DbState
  pg : PgState
  deriving Repr, DecidableEq

/-- Modelled from the spec: `promote_pending_nft` of `crate::db` (not under
src/).  If a PendingMint exists for the transaction hash, create
`Token(owner = recipient, redeemed = false)` and delete the PendingMint;
otherwise (already promoted) it is a no-op, not an error. -/
def promote_pending_nft (s : DbState) (txHash tokenId : String) : DbState :=
  match s.pendingMints.find? (fun p => p.txHash = txHash) with
  | some p =>
      { s with
        pendingMints := s.pendingMints.filter (fun q => ¬ q.txHash = txHash),
        tokens := { tokenId := tokenId, owner := p.recipient, redeemed := false } :: s.tokens }
  | none => s

/-- The linked user returned by `get_user_by_x_id`: nft.rs reads only
`access_tokens`, an `Option` that is `unwrap`ped at line 62. -/
structure UserRec where
  accessTokens : Option String
  deriving Repr, DecidableEq

/-- The decoded `RedeemTweet` event fields used by nft.rs. -/
structure RedeemEv where
  tokenId : Nat
  x_id : Nat
  content : String
  policy : String
  deriving Repr, DecidableEq

/-- The decoded `Transfer` event fields used by nft.rs.  Addresses are
modelled as their `to_string()` renderings, as nft.rs compares them
(lines 135-136). -/
structure TransferEv where
  tokenId : Nat
  tfrom : String
  tto : String
  deriving Repr, DecidableEq

/-- The decoded `NewTokenData` (mint confirmation) event fields used by
nft.rs. -/
structure NewTokenEv where
  tokenId : Nat
  tto : String
  deriving Repr, DecidableEq

/-- The closed set of decoded event variants the match at nft.rs lines 53-172
distinguishes; `other` covers every further variant of `NFTEvents`
(the `_ => continue` arm). -/
inductive NFTEvent where
  | redeemTweet (r : RedeemEv)
  | newTokenData (m : NewTokenEv)
  | transfer (t : TransferEv)
  | other
  deriving Repr, DecidableEq

/-- Modelled from the spec: the two failure kinds of
`NFTEvents::decode_raw_log` (alloy library code, not under src/): a first
topic matching no known event signature, or a known signature whose payload
violates the expected field layout. -/
inductive DecodeError where
  | unknownSignature
  | layoutMismatch
  deriving Repr, DecidableEq

/-- A raw log as consumed by the loop: its decode result (the decoder itself
is alloy library code) and `log.transaction_hash`, an `Option` that nft.rs
`unwrap`s at line 123. -/
structure LogItem where
  decoded : Except DecodeError NFTEvent
  txHash : Option String

/-- The external calls a handler can make, recorded in order.  Store calls
are the postgres statements and the TeleportDB mutations; `publishTweet` is
the `client.raw_tweet` publication. -/
inductive Call where
  | safetyCheck (content policy : String)
  | getUserByXId (xId : String)
  | publishTweet (content : String)
  | addTweet (tokenId tweetId : String)
  | pgConnect
  | queryNft (tokenId : Int)
  | insertRedeemed (row : RedeemedRow)
  | updateUserCounter (userId : String)
  | deleteNft (tokenId : Int)
  | updateNftOwner (tto : String) (tokenId : Int)
  | promotePending (txHash tokenId : String)
  deriving Repr, DecidableEq

/-- The per-event environment: results of the external calls the handler may
make.  `is_tweet_safe` has no error path in nft.rs (awaited without `?`);
`get_user_by_x_id` is followed by `.ok()` so an error is already a `none`;
`raw_tweet`, `add_tweet`, `tokio_postgres::connect` and
`promote_pending_nft` are each followed by `?`. -/
structure Env where
  is_tweet_safe : String → String → Bool
  get_user_by_x_id : String → Option UserRec
  raw_tweet : String → Except Unit String
  addTweetErr : Bool
  connectErr : Bool
  promoteErr : Bool
  freshId : String

/-- Outcome of handling one event: `ok` (fall through to the next stream
item), `err` (a `?` propagated the error out of `subscribe_to_nft_events`)
or `panicked` (an `unwrap`/`expect` failed).  The state is the store state
at that point and `calls` the external calls made, in order. -/
inductive HandlerResult where
  | ok (s : State) (calls : List Call)
  | err (s : State) (calls : List Call)
  | panicked (calls : List Call)
  deriving Repr, DecidableEq

/-- The `NFTEvents::RedeemTweet(redeem)` arm (nft.rs lines 54-119), line by
line: safety gate; if safe, user lookup, optional publication and
`add_tweet`; postgres connect; `tokenId` parse with `unwrap`; `query_one` on
`NftIndex` (an error unless exactly one row matches); INSERT into
`RedeemedIndex` with the shadowed `tweet_id = ""` of line 94; UPDATE of the
`User` counter; DELETE of the `NftIndex` row. -/
def handleRedeemTweet (env : Env) (r : RedeemEv) (s : State) : HandlerResult :=
  let safe := env.is_tweet_safe r.content r.policy
  let calls0 := [Call.safetyCheck r.content r.policy]
  if safe then
    let user := env.get_user_by_x_id (toString r.x_id)
    let calls1 := calls0 ++ [Call.getUserByXId (toString r.x_id)]
    let afterUser : HandlerResult :=
      match user with
      | some u =>
          match u.accessTokens with
          | none => HandlerResult.panicked calls1
          | some _ =>
              match env.raw_tweet r.content with
              | Except.error _ =>
                  HandlerResult.err s (calls1 ++ [Call.publishTweet r.content])
              | Except.ok tweetId =>
                  if env.addTweetErr then
                    HandlerResult.err s (calls1 ++
                      [Call.publishTweet r.content,
                       Call.addTweet (toString r.tokenId) tweetId])
                  else
                    HandlerResult.ok
                      { s with tdb :=
                          { s.tdb with tweets :=
                              (toString r.tokenId, tweetId) :: s.tdb.tweets } }
                      (calls1 ++
                        [Call.publishTweet r.content,
                         Call.addTweet (toString r.tokenId) tweetId])
      | none => HandlerResult.ok s calls1
    match afterUser with
    | HandlerResult.err s' cs => HandlerResult.err s' cs
    | HandlerResult.panicked cs => HandlerResult.panicked cs
    | HandlerResult.ok s1 cs =>
        if env.connectErr then HandlerResult.err s1 (cs ++ [Call.pgConnect])
        else
          let cs1 := cs ++ [Call.pgConnect]
          match parseI32 r.tokenId with
          | none => HandlerResult.panicked cs1
          | some tid =>
              let cs2 := cs1 ++ [Call.queryNft tid]
              match s1.pg.nftIndex.filter (fun row => row.tokenId = tid) with
              | [row] =>
                  let newRow : RedeemedRow :=
                    { id := env.freshId,
                      creatorUserId := row.userId,
                      tokenId := tid,
                      tweetId := "",
                      twitterUserName := row.twitterUserName,
                      safeguard := r.policy,
                      content := r.content }
                  let pg1 := { s1.pg with
                    redeemedIndex := newRow :: s1.pg.redeemedIndex }
                  let pg2 := { pg1 with
                    users := pg1.users.map (fun (u : UserRow) =>
                      if u.id = row.userId then
                        { u with haveBeenRedeemed := u.haveBeenRedeemed + 1 }
                      else u) }
                  let pg3 := { pg2 with
                    nftIndex := pg2.nftIndex.filter (fun q => ¬ q.tokenId = tid) }
                  HandlerResult.ok { s1 with pg := pg3 }
                    (cs2 ++
                      [Call.insertRedeemed newRow,
                       Call.updateUserCounter row.userId,
                       Call.deleteNft tid])
              | _ => HandlerResult.err s1 cs2
  else
    HandlerResult.ok s calls0

/-- The `NFTEvents::NewTokenData` arm (nft.rs lines 120-133):
`log.transaction_hash.unwrap()`, then `promote_pending_nft(...)?`. -/
def handleNewTokenData (env : Env) (m : NewTokenEv) (txHash : Option String)
    (s : State) : HandlerResult :=
  match txHash with
  | none => HandlerResult.panicked []
  | some h =>
      if env.promoteErr then
        HandlerResult.err s [Call.promotePending h (toString m.tokenId)]
      else
        HandlerResult.ok
          { s with tdb := promote_pending_nft s.tdb h (toString m.tokenId) }
          [Call.promotePending h (toString m.tokenId)]

/-- The `NFTEvents::Transfer` arm (nft.rs lines 134-170): `tokenId` parse
with `unwrap` (line 137), postgres connect, then the three-way branch on the
zero address: from = zero → do nothing; to = zero → DELETE the `NftIndex`
row; otherwise → UPDATE its `userId` column to `to`. -/
def handleTransfer (env : Env) (t : TransferEv) (s : State) : HandlerResult :=
  match parseI32 t.tokenId with
  | none => HandlerResult.panicked []
  | some tid =>
      if env.connectErr then HandlerResult.err s [Call.pgConnect]
      else
        if t.tfrom = zeroAddress then
          HandlerResult.ok s [Call.pgConnect]
        else if t.tto = zeroAddress then
          HandlerResult.ok
            { s with pg := { s.pg with
                nftIndex := s.pg.nftIndex.filter (fun q => ¬ q.tokenId = tid) } }
            [Call.pgConnect, Call.deleteNft tid]
        else
          HandlerResult.ok
            { s with pg := { s.pg with
                nftIndex := s.pg.nftIndex.map (fun q =>
                  if q.tokenId = tid then { q with userId := t.tto } else q) } }
            [Call.pgConnect, Call.updateNftOwner t.tto tid]

/-- One iteration of the `while let Some(log)` loop body (nft.rs lines
51-173): `if let Ok(event) = decode_raw_log(...)` — any decode error is
silently skipped — then the match on the variant, with `_ => continue`. -/
def processLog (env : Env) (l : LogItem) (s : State) : HandlerResult :=
  match l.decoded with
  | Except.error _ => HandlerResult.ok s []
  | Except.ok ev =>
      match ev with
      | NFTEvent.redeemTweet r => handleRedeemTweet env r s
      | NFTEvent.newTokenData m => handleNewTokenData env m l.txHash s
      | NFTEvent.transfer t => handleTransfer env t s
      | NFTEvent.other => HandlerResult.ok s []

/-- Result of running the whole subscription loop on a finite prefix of the
stream: normal exhaustion, an error propagated out of
`subscribe_to_nft_events`, or a panic. -/
inductive LoopResult where
  | ok (s : State)
  | err (s : State)
  | panicked
  deriving Repr, DecidableEq

/-- The subscription loop of `subscribe_to_nft_events` on a finite stream
prefix: each event is handled in order; an `ok` advances to the next log, an
`err` terminates the loop (the `?` returns from the function), a panic
aborts the process. -/
def subscribe_to_nft_events : List (LogItem × Env) → State → LoopResult
  | [], s => LoopResult.ok s
  | (l, env) :: rest, s =>
      match processLog env l s with
      | HandlerResult.ok s' _ => subscribe_to_nft_events rest s'
      | HandlerResult.err s' _ => LoopResult.err s'
      | HandlerResult.panicked _ => LoopResult.panicked

/-! ### Concrete fixtures for witnesses and counterexamples -/

/-- A benign environment: safety gate approves, no linked user, publication
returns `"ext1"`, no injected store/transport failures. -/
def baseEnv : Env :=
  { is_tweet_safe := fun _ _ => true,
    get_user_by_x_id := fun _ => none,
    raw_tweet := fun _ => Except.ok "ext1",
    addTweetErr := false,
    connectErr := false,
    promoteErr := false,
    freshId := "rec1" }

/-- An environment whose safety gate rejects every content. -/
def rejectEnv : Env := { baseEnv with is_tweet_safe := fun _ _ => false }

/-- An ownership-index row for token 42 created by user `creator1`. -/
def row42 : NftRow := { tokenId := 42, userId := "creator1", twitterUserName := "alice" }

/-- A `User` row for `creator1` with no redemptions yet. -/
def user1 : UserRow := { id := "creator1", haveBeenRedeemed := 0 }

/-- A store state holding exactly token 42 and user `creator1`. -/
def state42 : State :=
  { tdb := { pendingMints := [], tokens := [], tweets := [] },
    pg := { nftIndex := [row42], redeemedIndex := [], users := [user1] } }

/-- A `RedeemTweet` event for token 42. -/
def redeem42 : RedeemEv := { tokenId := 42, x_id := 7, content := "hello", policy := "p" }

/-- The `RedeemedIndex` row the INSERT at nft.rs lines 99-103 persists for a
redemption of `r` against index row `row`: `creatorUserId` is whatever the
`userId` column held, and `tweetId` is the shadowed `""` of line 94. -/
def newRedeemedRow (env : Env) (r : RedeemEv) (row : NftRow) : RedeemedRow :=
  { id := env.freshId,
    creatorUserId := row.userId,
    tokenId := Int.ofNat r.tokenId,
    tweetId := "",
    twitterUserName := row.twitterUserName,
    safeguard := r.policy,
    content := r.content }

/-- An environment with a linked user (credentials present) whose
publication succeeds with external id `tw123`. -/
def userEnv : Env :=
  { baseEnv with
    get_user_by_x_id := fun _ => some { accessTokens := some "at1" },
    raw_tweet := fun _ => Except.ok "tw123" }

/-- The store state after the successful redemption of token 42 from
`state42` under `baseEnv` (no linked user). -/
def state42r : State :=
  { tdb := { pendingMints := [], tokens := [], tweets := [] },
    pg := { nftIndex := [],
            redeemedIndex := [{ id := "rec1", creatorUserId := "creator1", tokenId := 42,
                                tweetId := "", twitterUserName := "alice", safeguard := "p",
                                content := "hello" }],
            users := [{ id := "creator1", haveBeenRedeemed := 1 }] } }

/-- The store state after the successful redemption of token 42 from
`state42` under `userEnv` (linked user, publication returned `tw123`). -/
def state42ru : State :=
  { state42r with tdb := { pendingMints := [], tokens := [], tweets := [("42", "tw123")] } }

/-! ### C3 — decode failures -/

/-- C3 counterexample: a log whose payload matches a known signature but
violates the expected field layout does NOT propagate an error halting
ingestion — the `if let Ok` at nft.rs line 52 silently skips it and the
stream advances: here the following `Transfer` log is still processed (token
42 is deleted by the burn) and the run ends without error. -/
theorem layout_mismatch_does_not_halt :
    subscribe_to_nft_events
      [({ decoded := Except.error DecodeError.layoutMismatch, txHash := none }, baseEnv),
       ({ decoded := Except.ok (NFTEvent.transfer
            { tokenId := 42, tfrom := "0xabc", tto := zeroAddress }), txHash := none }, baseEnv)]
      state42
    = LoopResult.ok
        { tdb := { pendingMints := [], tokens := [], tweets := [] },
          pg := { nftIndex := [], redeemedIndex := [], users := [user1] } } := by
  decide

/-- C3 (amended): every decode failure — unknown first-topic signature or a
known signature with a violated field layout — is silently skipped with no
state change and no external call, and the loop continues with the rest of
the stream; no decode error halts ingestion. -/
theorem decode_error_skipped (env : Env) (l : LogItem) (e : DecodeError) (s : State)
    (h : l.decoded = Except.error e) :
    processLog env l s = HandlerResult.ok s []
    ∧ ∀ rest, subscribe_to_nft_events ((l, env) :: rest) s = subscribe_to_nft_events rest s := by
  constructor
  · unfold processLog
    rw [h]
  · intro rest
    simp only [subscribe_to_nft_events, processLog, h]

/-- C3 witness: the amended theorem applied to a concrete unrecognized log. -/
theorem decode_error_skipped_witness :
    processLog baseEnv { decoded := Except.error DecodeError.unknownSignature, txHash := none }
      state42 = HandlerResult.ok state42 [] :=
  (decode_error_skipped baseEnv
    { decoded := Except.error DecodeError.unknownSignature, txHash := none }
    DecodeError.unknownSignature state42 rfl).1

/-! ### C4 — safety rejection discards the event -/

/-- C4: a `RedeemTweet` event the safety gate rejects is fully discarded —
the only external call is the safety check itself (no Index Store call, no
publication, no insert, no counter update, no delete), the result is not an
error, and the store state is exactly the state before the event. -/
theorem redeem_unsafe_fully_discarded (env : Env) (r : RedeemEv) (s : State)
    (h : env.is_tweet_safe r.content r.policy = false) :
    handleRedeemTweet env r s
      = HandlerResult.ok s [Call.safetyCheck r.content r.policy] := by
  unfold handleRedeemTweet
  rw [h]
  simp

/-- C4 witness: the rejecting environment on token 42. -/
theorem redeem_unsafe_fully_discarded_witness :
    handleRedeemTweet rejectEnv redeem42 state42
      = HandlerResult.ok state42 [Call.safetyCheck "hello" "p"] :=
  redeem_unsafe_fully_discarded rejectEnv redeem42 state42 rfl

/-! ### C1 — store/transport errors terminate the loop -/

/-- C1 counterexample: a DB error during `MintConfirmed` promotion crashes
the subscriber: the `?` at nft.rs line 126 propagates the error out of
`subscribe_to_nft_events`, so the loop terminates with an error, the state
is untouched and the next log (which would promote the second pending mint)
is never processed — the claimed "advances to the next event without
terminating" fails. -/
theorem promotion_error_crashes_subscriber :
    subscribe_to_nft_events
      [({ decoded := Except.ok (NFTEvent.newTokenData { tokenId := 1, tto := "0xaaa" }),
          txHash := some "0xh1" }, { baseEnv with promoteErr := true }),
       ({ decoded := Except.ok (NFTEvent.newTokenData { tokenId := 2, tto := "0xbbb" }),
          txHash := some "0xh2" }, baseEnv)]
      state42
    = LoopResult.err state42 := by
  decide

/-- C1 (amended): a store or transport error raised while handling one event
is not swallowed: the `?` operator propagates it out of
`subscribe_to_nft_events`, terminating the subscription loop, and no later
event of the stream is processed. -/
theorem handler_error_terminates_loop (env : Env) (l : LogItem) (s s' : State)
    (cs : List Call) (h : processLog env l s = HandlerResult.err s' cs) :
    ∀ rest, subscribe_to_nft_events ((l, env) :: rest) s = LoopResult.err s' := by
  intro rest
  unfold subscribe_to_nft_events
  rw [h]

/-- C1 witness: the amended theorem applied to a concrete failing promotion
followed by a nonempty rest of the stream. -/
theorem handler_error_terminates_loop_witness :
    subscribe_to_nft_events
      [({ decoded := Except.ok (NFTEvent.newTokenData { tokenId := 1, tto := "0xaaa" }),
          txHash := some "0xh1" }, { baseEnv with promoteErr := true }),
       ({ decoded := Except.ok NFTEvent.other, txHash := none }, baseEnv)]
      state42
    = LoopResult.err state42 :=
  handler_error_terminates_loop { baseEnv with promoteErr := true }
    { decoded := Except.ok (NFTEvent.newTokenData { tokenId := 1, tto := "0xaaa" }),
      txHash := some "0xh1" }
    state42 state42 [Call.promotePending "0xh1" "1"] rfl
    [({ decoded := Except.ok NFTEvent.other, txHash := none }, baseEnv)]

/-! ### Helper lemmas on the list-based tables -/

lemma filter_ne_eq_self_of_absent (l : List NftRow) (tid : Int)
    (h : ∀ q ∈ l, q.tokenId ≠ tid) :
    l.filter (fun q => ¬ q.tokenId = tid) = l :=
  List.filter_eq_self.mpr (fun q hq => by simp [h q hq])

lemma promote_pending_nft_noop (d : DbState) (h tokenId : String)
    (hn : d.pendingMints.find? (fun p => p.txHash = h) = none) :
    promote_pending_nft d h tokenId = d := by
  unfold promote_pending_nft
  rw [hn]

lemma map_update_eq_self_of_absent (l : List NftRow) (tid : Int) (tto : String)
    (h : ∀ q ∈ l, q.tokenId ≠ tid) :
    l.map (fun q => if q.tokenId = tid then { q with userId := tto } else q) = l := by
  induction l with
  | nil => rfl
  | cons a l ih =>
      have ha : a.tokenId ≠ tid := h a (List.mem_cons_self a l)
      simp [ha, ih fun q hq => h q (List.mem_cons_of_mem a hq)]

/-! ### C9 — tokenId parse via i32 unwrap -/

/-- C9 counterexample: a `RedeemTweet` event with `tokenId = 2^31` (above
`i32::MAX`) whose content the safety gate rejects is handled without a
panic — the parse at nft.rs line 83 sits inside the `if safe` branch, so
"for any event whose tokenId exceeds that bound the process panics" is
false. -/
theorem oversized_token_unsafe_no_panic :
    handleRedeemTweet rejectEnv
      { tokenId := 2147483648, x_id := 1, content := "c", policy := "p" } state42
      = HandlerResult.ok state42 [Call.safetyCheck "c" "p"] := by
  decide

/-- C9 (amended): both handlers convert the decoded `tokenId` to `i32` by
string parse followed by `unwrap`, which is panic-free exactly when
`tokenId ≤ 2147483647`.  A `Transfer` event parses first, so it panics on
any oversized `tokenId`; a `RedeemTweet` event panics on an oversized
`tokenId` whenever it reaches the parse (safety gate passed and the
preceding user/publication/connect steps raised no error) — but a
safety-rejected event never reaches the parse and does not panic. -/
theorem token_id_parse_overflow_panics (env : Env) (r : RedeemEv) (t : TransferEv)
    (s : State) (hr : maxI32 < r.tokenId) (ht : maxI32 < t.tokenId)
    (hsafe : env.is_tweet_safe r.content r.policy = true)
    (huser : env.get_user_by_x_id (toString r.x_id) = none)
    (hconn : env.connectErr = false) :
    handleTransfer env t s = HandlerResult.panicked []
    ∧ handleRedeemTweet env r s
        = HandlerResult.panicked
            [Call.safetyCheck r.content r.policy,
             Call.getUserByXId (toString r.x_id), Call.pgConnect]
    ∧ ∀ n : Nat, n ≤ maxI32 → parseI32 n = some (Int.ofNat n) := by
  refine ⟨?_, ?_, ?_⟩
  · unfold handleTransfer
    simp [parseI32, Nat.not_le.mpr ht]
  · unfold handleRedeemTweet
    simp [hsafe, huser, hconn, parseI32, Nat.not_le.mpr hr]
  · intro n hn
    simp [parseI32, hn]

/-- C9 witness: the amended theorem at `tokenId = 2^31` under the benign
environment. -/
theorem token_id_parse_overflow_panics_witness :
    handleTransfer baseEnv
        { tokenId := 2147483648, tfrom := "0xdead", tto := "0xbeef" } state42
      = HandlerResult.panicked []
    ∧ handleRedeemTweet baseEnv
        { tokenId := 2147483648, x_id := 1, content := "c", policy := "p" } state42
        = HandlerResult.panicked
            [Call.safetyCheck "c" "p", Call.getUserByXId "1", Call.pgConnect] := by
  have h := token_id_parse_overflow_panics baseEnv
    { tokenId := 2147483648, x_id := 1, content := "c", policy := "p" }
    { tokenId := 2147483648, tfrom := "0xdead", tto := "0xbeef" } state42
    (by decide) (by decide) rfl rfl rfl
  exact ⟨h.1, h.2.1⟩

/-! ### C7 — ownership transfer semantics -/

/-- C7: for a `Transfer` event (with a parseable `tokenId` and a reachable
store): from = zero address → ignored, no Index Store statement; to = zero
address → the `NftIndex` rows for that `tokenId` are deleted, a missing row
being a no-op rather than an error; otherwise → the `userId` (owner) column of the row
column is set to `to`, a missing row producing no error and creating no
row. -/
theorem transfer_event_semantics (env : Env) (t : TransferEv) (s : State)
    (hb : t.tokenId ≤ maxI32) (hc : env.connectErr = false) :
    (t.tfrom = zeroAddress →
        handleTransfer env t s = HandlerResult.ok s [Call.pgConnect])
    ∧ (t.tfrom ≠ zeroAddress → t.tto = zeroAddress →
        handleTransfer env t s
          = HandlerResult.ok
              { s with pg := { s.pg with
                  nftIndex := s.pg.nftIndex.filter (fun q => ¬ q.tokenId = Int.ofNat t.tokenId) } }
              [Call.pgConnect, Call.deleteNft (Int.ofNat t.tokenId)])
    ∧ (t.tfrom ≠ zeroAddress → t.tto ≠ zeroAddress →
        handleTransfer env t s
          = HandlerResult.ok
              { s with pg := { s.pg with
                  nftIndex := s.pg.nftIndex.map (fun q => if q.tokenId = Int.ofNat t.tokenId then { q with userId := t.tto } else q) } }
              [Call.pgConnect, Call.updateNftOwner t.tto (Int.ofNat t.tokenId)])
    ∧ ((∀ q ∈ s.pg.nftIndex, q.tokenId ≠ Int.ofNat t.tokenId) →
        handleTransfer env t s
          = HandlerResult.ok s
              (if t.tfrom = zeroAddress then [Call.pgConnect]
               else if t.tto = zeroAddress then
                 [Call.pgConnect, Call.deleteNft (Int.ofNat t.tokenId)]
               else
                 [Call.pgConnect, Call.updateNftOwner t.tto (Int.ofNat t.tokenId)])) := by
  refine ⟨?_, ?_, ?_, ?_⟩
  · intro hf
    unfold handleTransfer
    simp [parseI32, hb, hc, hf]
  · intro hf hto
    unfold handleTransfer
    simp [parseI32, hb, hc, hf, hto]
  · intro hf hto
    unfold handleTransfer
    simp [parseI32, hb, hc, hf, hto]
  · intro habs
    by_cases hf : t.tfrom = zeroAddress
    · unfold handleTransfer
      simp [parseI32, hb, hc, hf]
    · by_cases hto : t.tto = zeroAddress
      · have h2 : handleTransfer env t s
            = HandlerResult.ok
                { s with pg := { s.pg with
                    nftIndex := s.pg.nftIndex.filter (fun q => ¬ q.tokenId = Int.ofNat t.tokenId) } }
                [Call.pgConnect, Call.deleteNft (Int.ofNat t.tokenId)] := by
          unfold handleTransfer
          simp [parseI32, hb, hc, hf, hto]
        rw [h2, filter_ne_eq_self_of_absent s.pg.nftIndex (Int.ofNat t.tokenId) habs]
        simp [hf, hto]
      · have h3 : handleTransfer env t s
            = HandlerResult.ok
                { s with pg := { s.pg with
                    nftIndex := s.pg.nftIndex.map (fun q => if q.tokenId = Int.ofNat t.tokenId then { q with userId := t.tto } else q) } }
                [Call.pgConnect, Call.updateNftOwner t.tto (Int.ofNat t.tokenId)] := by
          unfold handleTransfer
          simp [parseI32, hb, hc, hf, hto]
        rw [h3, map_update_eq_self_of_absent s.pg.nftIndex (Int.ofNat t.tokenId) t.tto habs]
        simp [hf, hto]

/-- C7 witness: transferring token 42 from `0xdead` to `0xbeef` on the
single-row index rewrites the owner column of the row. -/
theorem transfer_event_semantics_witness :
    handleTransfer baseEnv { tokenId := 42, tfrom := "0xdead", tto := "0xbeef" } state42
      = HandlerResult.ok
          { state42 with pg := { state42.pg with
              nftIndex := [{ row42 with userId := "0xbeef" }] } }
          [Call.pgConnect, Call.updateNftOwner "0xbeef" 42] := by
  have h := (transfer_event_semantics baseEnv
      { tokenId := 42, tfrom := "0xdead", tto := "0xbeef" } state42
      (by decide) rfl).2.2.1 (by decide) (by decide)
  rw [h]
  decide

/-! ### C8 — mint promotion idempotence -/

/-- C8: promotion of the PendingMint keyed by the transaction hash of the event
is idempotent: starting from a state holding a pending record for the hash
and no Token row for the tokenId, applying the same `NewTokenData` event
twice yields exactly one Token row, zero PendingMint rows for that hash, and
the second application is a no-op producing no error. -/
theorem mint_promotion_idempotent (env : Env) (m : NewTokenEv) (h : String) (s : State)
    (hp : env.promoteErr = false)
    (hpend : ∃ p ∈ s.tdb.pendingMints, p.txHash = h)
    (htok : ∀ tok ∈ s.tdb.tokens, tok.tokenId ≠ toString m.tokenId) :
    ∃ s1 : State,
      handleNewTokenData env m (some h) s
          = HandlerResult.ok s1 [Call.promotePending h (toString m.tokenId)]
      ∧ (s1.tdb.tokens.filter (fun tok => tok.tokenId = toString m.tokenId)).length = 1
      ∧ s1.tdb.pendingMints.filter (fun p => p.txHash = h) = []
      ∧ handleNewTokenData env m (some h) s1
          = HandlerResult.ok s1 [Call.promotePending h (toString m.tokenId)] := by
  obtain ⟨p0, hp0mem, hp0hash⟩ := hpend
  have hsome : (s.tdb.pendingMints.find? (fun p => p.txHash = h)).isSome := by
    rw [List.find?_isSome]
    exact ⟨p0, hp0mem, by simp [hp0hash]⟩
  obtain ⟨q, hq⟩ := Option.isSome_iff_exists.mp hsome
  have hpromo : promote_pending_nft s.tdb h (toString m.tokenId)
      = { s.tdb with
          pendingMints := s.tdb.pendingMints.filter (fun p => ¬ p.txHash = h),
          tokens := { tokenId := toString m.tokenId, owner := q.recipient, redeemed := false } :: s.tdb.tokens } := by
    unfold promote_pending_nft
    rw [hq]
  have hnilTok : s.tdb.tokens.filter (fun tok => tok.tokenId = toString m.tokenId) = [] :=
    List.filter_eq_nil_iff.mpr (fun tok htm => by simp [htok tok htm])
  have hnilPend : (s.tdb.pendingMints.filter (fun p => ¬ p.txHash = h)).filter
      (fun p => p.txHash = h) = [] := by
    refine List.filter_eq_nil_iff.mpr (fun p hpmem => ?_)
    have := List.of_mem_filter hpmem
    simpa using this
  refine ⟨{ s with tdb := promote_pending_nft s.tdb h (toString m.tokenId) }, ?_, ?_, ?_, ?_⟩
  · unfold handleNewTokenData
    simp [hp]
  · rw [hpromo]
    simp [List.filter_cons, hnilTok]
  · rw [hpromo]
    simp [hnilPend]
  · unfold handleNewTokenData
    have hnone : ((promote_pending_nft s.tdb h (toString m.tokenId)).pendingMints.find?
        (fun p => p.txHash = h)) = none := by
      rw [hpromo]
      refine List.find?_eq_none.mpr (fun p hpmem => ?_)
      have := List.of_mem_filter hpmem
      simpa using this
    have hfix := promote_pending_nft_noop (promote_pending_nft s.tdb h (toString m.tokenId))
      h (toString m.tokenId) hnone
    simp [hp, hfix]

/-- C8 witness: promoting pending mint `0xh1` to token 7 twice. -/
theorem mint_promotion_idempotent_witness :
    ∃ s1 : State,
      handleNewTokenData baseEnv { tokenId := 7, tto := "0xaaa" } (some "0xh1")
          { tdb := { pendingMints := [{ txHash := "0xh1", creatorUserId := "u1",
                                        recipient := "0xaaa" }],
                     tokens := [], tweets := [] },
            pg := { nftIndex := [], redeemedIndex := [], users := [] } }
          = HandlerResult.ok s1 [Call.promotePending "0xh1" "7"]
      ∧ (s1.tdb.tokens.filter (fun tok => tok.tokenId = "7")).length = 1
      ∧ s1.tdb.pendingMints.filter (fun p => p.txHash = "0xh1") = []
      ∧ handleNewTokenData baseEnv { tokenId := 7, tto := "0xaaa" } (some "0xh1") s1
          = HandlerResult.ok s1 [Call.promotePending "0xh1" "7"] :=
  mint_promotion_idempotent baseEnv { tokenId := 7, tto := "0xaaa" } "0xh1"
    { tdb := { pendingMints := [{ txHash := "0xh1", creatorUserId := "u1",
                                  recipient := "0xaaa" }],
               tokens := [], tweets := [] },
      pg := { nftIndex := [], redeemedIndex := [], users := [] } }
    rfl ⟨{ txHash := "0xh1", creatorUserId := "u1", recipient := "0xaaa" }, by decide⟩
    (by decide)

/-! ### Shared lemmas on the redemption pipeline -/

lemma filter_after_delete (l : List NftRow) (tid : Int) :
    (l.filter (fun q => ¬ q.tokenId = tid)).filter (fun q => q.tokenId = tid) = [] := by
  refine List.filter_eq_nil_iff.mpr (fun q hq => ?_)
  have := List.of_mem_filter hq
  simpa using this

lemma redeem_success_no_user (env : Env) (r : RedeemEv) (s : State) (row : NftRow)
    (hsafe : env.is_tweet_safe r.content r.policy = true)
    (huser : env.get_user_by_x_id (toString r.x_id) = none)
    (hconn : env.connectErr = false) (hb : r.tokenId ≤ maxI32)
    (hfilter : s.pg.nftIndex.filter (fun q => q.tokenId = (r.tokenId : Int)) = [row]) :
    handleRedeemTweet env r s
      = HandlerResult.ok
          { s with pg := { s.pg with
              nftIndex := s.pg.nftIndex.filter (fun q => ¬ q.tokenId = (r.tokenId : Int)),
              redeemedIndex := newRedeemedRow env r row :: s.pg.redeemedIndex,
              users := s.pg.users.map (fun u => if u.id = row.userId then { u with haveBeenRedeemed := u.haveBeenRedeemed + 1 } else u) } }
          [Call.safetyCheck r.content r.policy,
           Call.getUserByXId (toString r.x_id),
           Call.pgConnect,
           Call.queryNft ((r.tokenId : Int)),
           Call.insertRedeemed (newRedeemedRow env r row),
           Call.updateUserCounter row.userId,
           Call.deleteNft ((r.tokenId : Int))] := by
  unfold handleRedeemTweet
  simp [hsafe, huser, hconn, parseI32, hb, hfilter, newRedeemedRow]

lemma redeem_success_with_user (env : Env) (r : RedeemEv) (s : State) (row : NftRow)
    (tok tw : String)
    (hsafe : env.is_tweet_safe r.content r.policy = true)
    (huser : env.get_user_by_x_id (toString r.x_id) = some { accessTokens := some tok })
    (htweet : env.raw_tweet r.content = Except.ok tw)
    (hadd : env.addTweetErr = false)
    (hconn : env.connectErr = false) (hb : r.tokenId ≤ maxI32)
    (hfilter : s.pg.nftIndex.filter (fun q => q.tokenId = (r.tokenId : Int)) = [row]) :
    handleRedeemTweet env r s
      = HandlerResult.ok
          { s with
            tdb := { s.tdb with tweets := (toString r.tokenId, tw) :: s.tdb.tweets },
            pg := { s.pg with
              nftIndex := s.pg.nftIndex.filter (fun q => ¬ q.tokenId = (r.tokenId : Int)),
              redeemedIndex := newRedeemedRow env r row :: s.pg.redeemedIndex,
              users := s.pg.users.map (fun u => if u.id = row.userId then { u with haveBeenRedeemed := u.haveBeenRedeemed + 1 } else u) } }
          [Call.safetyCheck r.content r.policy,
           Call.getUserByXId (toString r.x_id),
           Call.publishTweet r.content,
           Call.addTweet (toString r.tokenId) tw,
           Call.pgConnect,
           Call.queryNft ((r.tokenId : Int)),
           Call.insertRedeemed (newRedeemedRow env r row),
           Call.updateUserCounter row.userId,
           Call.deleteNft ((r.tokenId : Int))] := by
  unfold handleRedeemTweet
  simp [hsafe, huser, htweet, hadd, hconn, parseI32, hb, hfilter, newRedeemedRow]

lemma redeem_query_error_no_user (env : Env) (r : RedeemEv) (s : State)
    (hsafe : env.is_tweet_safe r.content r.policy = true)
    (huser : env.get_user_by_x_id (toString r.x_id) = none)
    (hconn : env.connectErr = false) (hb : r.tokenId ≤ maxI32)
    (habs : s.pg.nftIndex.filter (fun q => q.tokenId = (r.tokenId : Int)) = []) :
    handleRedeemTweet env r s
      = HandlerResult.err s
          [Call.safetyCheck r.content r.policy,
           Call.getUserByXId (toString r.x_id),
           Call.pgConnect,
           Call.queryNft ((r.tokenId : Int))] := by
  unfold handleRedeemTweet
  simp [hsafe, huser, hconn, parseI32, hb, habs]

lemma redeem_query_error_with_user (env : Env) (r : RedeemEv) (s : State)
    (tok tw : String)
    (hsafe : env.is_tweet_safe r.content r.policy = true)
    (huser : env.get_user_by_x_id (toString r.x_id) = some { accessTokens := some tok })
    (htweet : env.raw_tweet r.content = Except.ok tw)
    (hadd : env.addTweetErr = false)
    (hconn : env.connectErr = false) (hb : r.tokenId ≤ maxI32)
    (habs : s.pg.nftIndex.filter (fun q => q.tokenId = (r.tokenId : Int)) = []) :
    handleRedeemTweet env r s
      = HandlerResult.err
          { s with tdb := { s.tdb with tweets := (toString r.tokenId, tw) :: s.tdb.tweets } }
          [Call.safetyCheck r.content r.policy,
           Call.getUserByXId (toString r.x_id),
           Call.publishTweet r.content,
           Call.addTweet (toString r.tokenId) tw,
           Call.pgConnect,
           Call.queryNft ((r.tokenId : Int))] := by
  unfold handleRedeemTweet
  simp [hsafe, huser, htweet, hadd, hconn, parseI32, hb, habs]

lemma filter_map_update (l : List NftRow) (tid : Int) (tto : String) (row : NftRow)
    (h : l.filter (fun q => q.tokenId = tid) = [row]) :
    (l.map (fun q => if q.tokenId = tid then { q with userId := tto } else q)).filter
      (fun q => q.tokenId = tid) = [{ row with userId := tto }] := by
  induction l with
  | nil => simp at h
  | cons a l ih =>
      by_cases ha : a.tokenId = tid
      · rw [List.filter_cons_of_pos (by simp [ha])] at h
        injection h with h1 h2
        have hmapnil : l.map (fun q => if q.tokenId = tid then { q with userId := tto } else q) = l :=
          map_update_eq_self_of_absent l tid tto (fun q hq => by
            have := List.filter_eq_nil_iff.mp h2 q hq
            simpa using this)
        rw [List.map_cons, if_pos ha, hmapnil, List.filter_cons_of_pos (by simp [ha]), h2, h1]
      · rw [List.filter_cons_of_neg (by simp [ha])] at h
        rw [List.map_cons, if_neg ha, List.filter_cons_of_neg (by simp [ha])]
        exact ih h

/-! ### C2 — redemption replay -/

/-- C2 counterexample: replaying the `RedeemTweet` event for token 42 after
its successful first redemption is NOT an error-free no-op: the first
application persists the record and deletes the index row, and on the replay
`query_one` finds no `NftIndex` row, so the `?` at nft.rs line 90 produces
an error (terminating the subscription) rather than treating the token as
already redeemed. -/
theorem redeem_replay_error_cex :
    handleRedeemTweet baseEnv redeem42 state42
      = HandlerResult.ok state42r
          [Call.safetyCheck "hello" "p", Call.getUserByXId "7", Call.pgConnect,
           Call.queryNft 42,
           Call.insertRedeemed { id := "rec1", creatorUserId := "creator1", tokenId := 42,
                                 tweetId := "", twitterUserName := "alice", safeguard := "p",
                                 content := "hello" },
           Call.updateUserCounter "creator1", Call.deleteNft 42]
    ∧ handleRedeemTweet baseEnv redeem42 state42r
      = HandlerResult.err state42r
          [Call.safetyCheck "hello" "p", Call.getUserByXId "7", Call.pgConnect,
           Call.queryNft 42] := by
  decide

/-- C2 (amended): replaying the same `RedeemTweet` event after a successful
first redemption finds no Token row, and exactly one RedeemedRecord exists
with the token absent from the index after either replay — but the replay is
not a silent no-op: it runs up to `query_one` (when a linked user is found
and publication succeeds, the replay even re-publishes and appends a second
entry to the TeleportDB tweets store first), `query_one` fails on the
missing row and the error propagates out of the subscription.  The postgres
store is left unchanged by the replay; the only possible replay mutation is
that extra TeleportDB tweets entry. -/
theorem redeem_replay_propagates_error (env env2 : Env) (r : RedeemEv) (s : State)
    (row : NftRow)
    (hsafe : env.is_tweet_safe r.content r.policy = true)
    (huser : env.get_user_by_x_id (toString r.x_id) = none)
    (hconn : env.connectErr = false) (hb : r.tokenId ≤ maxI32)
    (hfilter : s.pg.nftIndex.filter (fun q => q.tokenId = (r.tokenId : Int)) = [row])
    (hred : s.pg.redeemedIndex.filter (fun q => q.tokenId = (r.tokenId : Int)) = [])
    (hsafe2 : env2.is_tweet_safe r.content r.policy = true)
    (hconn2 : env2.connectErr = false)
    (huser2 : env2.get_user_by_x_id (toString r.x_id) = none
      ∨ ∃ tok tw : String,
          env2.get_user_by_x_id (toString r.x_id) = some { accessTokens := some tok }
          ∧ env2.raw_tweet r.content = Except.ok tw ∧ env2.addTweetErr = false) :
    ∃ s1 s2 : State, ∃ cs1 cs2 : List Call,
      handleRedeemTweet env r s = HandlerResult.ok s1 cs1
      ∧ (s1.pg.redeemedIndex.filter (fun q => q.tokenId = (r.tokenId : Int))).length = 1
      ∧ s1.pg.nftIndex.filter (fun q => q.tokenId = (r.tokenId : Int)) = []
      ∧ handleRedeemTweet env2 r s1 = HandlerResult.err s2 cs2
      ∧ s2.pg = s1.pg
      ∧ (s2.tdb.tweets = s1.tdb.tweets
         ∨ ∃ tw : String, s2.tdb.tweets = (toString r.tokenId, tw) :: s1.tdb.tweets) := by
  have h1 := redeem_success_no_user env r s row hsafe huser hconn hb hfilter
  have hlen : (((newRedeemedRow env r row :: s.pg.redeemedIndex)).filter
      (fun q => q.tokenId = (r.tokenId : Int))).length = 1 := by
    simp [newRedeemedRow, List.filter_cons, hred]
  rcases huser2 with hu2 | ⟨tok, tw, hu2, ht2, ha2⟩
  · exact ⟨{ s with pg := { s.pg with
        nftIndex := s.pg.nftIndex.filter (fun q => ¬ q.tokenId = (r.tokenId : Int)),
        redeemedIndex := newRedeemedRow env r row :: s.pg.redeemedIndex,
        users := s.pg.users.map (fun u => if u.id = row.userId then { u with haveBeenRedeemed := u.haveBeenRedeemed + 1 } else u) } },
      { s with pg := { s.pg with
        nftIndex := s.pg.nftIndex.filter (fun q => ¬ q.tokenId = (r.tokenId : Int)),
        redeemedIndex := newRedeemedRow env r row :: s.pg.redeemedIndex,
        users := s.pg.users.map (fun u => if u.id = row.userId then { u with haveBeenRedeemed := u.haveBeenRedeemed + 1 } else u) } },
      [Call.safetyCheck r.content r.policy, Call.getUserByXId (toString r.x_id),
       Call.pgConnect, Call.queryNft ((r.tokenId : Int)),
       Call.insertRedeemed (newRedeemedRow env r row),
       Call.updateUserCounter row.userId, Call.deleteNft ((r.tokenId : Int))],
      [Call.safetyCheck r.content r.policy, Call.getUserByXId (toString r.x_id),
       Call.pgConnect, Call.queryNft ((r.tokenId : Int))],
      h1, hlen, filter_after_delete _ _,
      redeem_query_error_no_user env2 r _ hsafe2 hu2 hconn2 hb (filter_after_delete _ _),
      rfl, Or.inl rfl⟩
  · exact ⟨{ s with pg := { s.pg with
        nftIndex := s.pg.nftIndex.filter (fun q => ¬ q.tokenId = (r.tokenId : Int)),
        redeemedIndex := newRedeemedRow env r row :: s.pg.redeemedIndex,
        users := s.pg.users.map (fun u => if u.id = row.userId then { u with haveBeenRedeemed := u.haveBeenRedeemed + 1 } else u) } },
      { s with
        tdb := { s.tdb with tweets := (toString r.tokenId, tw) :: s.tdb.tweets },
        pg := { s.pg with
        nftIndex := s.pg.nftIndex.filter (fun q => ¬ q.tokenId = (r.tokenId : Int)),
        redeemedIndex := newRedeemedRow env r row :: s.pg.redeemedIndex,
        users := s.pg.users.map (fun u => if u.id = row.userId then { u with haveBeenRedeemed := u.haveBeenRedeemed + 1 } else u) } },
      [Call.safetyCheck r.content r.policy, Call.getUserByXId (toString r.x_id),
       Call.pgConnect, Call.queryNft ((r.tokenId : Int)),
       Call.insertRedeemed (newRedeemedRow env r row),
       Call.updateUserCounter row.userId, Call.deleteNft ((r.tokenId : Int))],
      [Call.safetyCheck r.content r.policy, Call.getUserByXId (toString r.x_id),
       Call.publishTweet r.content, Call.addTweet (toString r.tokenId) tw,
       Call.pgConnect, Call.queryNft ((r.tokenId : Int))],
      h1, hlen, filter_after_delete _ _,
      redeem_query_error_with_user env2 r _ tok tw hsafe2 hu2 ht2 ha2 hconn2 hb
        (filter_after_delete _ _),
      rfl, Or.inr ⟨tw, rfl⟩⟩

/-- C2 witness: token 42 is redeemed from the single-row index with no
linked user, then the same event is replayed under an environment whose user
lookup finds a linked user with working credentials — the interesting
branch: the replay re-publishes, appends a tweets entry, and then errs on
the missing index row. -/
theorem redeem_replay_propagates_error_witness :
    ∃ s1 s2 : State, ∃ cs1 cs2 : List Call,
      handleRedeemTweet baseEnv redeem42 state42 = HandlerResult.ok s1 cs1
      ∧ (s1.pg.redeemedIndex.filter (fun q => q.tokenId = (42 : Int))).length = 1
      ∧ s1.pg.nftIndex.filter (fun q => q.tokenId = (42 : Int)) = []
      ∧ handleRedeemTweet userEnv redeem42 s1 = HandlerResult.err s2 cs2
      ∧ s2.pg = s1.pg
      ∧ (s2.tdb.tweets = s1.tdb.tweets
         ∨ ∃ tw : String, s2.tdb.tweets = ("42", tw) :: s1.tdb.tweets) :=
  redeem_replay_propagates_error baseEnv userEnv redeem42 state42 row42 rfl rfl rfl
    (by decide) (by decide) (by decide) rfl rfl
    (Or.inr ⟨"at1", "tw123", rfl, rfl, rfl⟩)

/-! ### C6 — no linked user: publication skipped, redemption finalized -/

/-- C6: a safe `RedeemTweet` whose creator xId resolves to no linked user
skips publication entirely — no publish call appears in the trace — yet the
RedeemedRecord is persisted, the counter of the creator is incremented and the
token is deleted from the ownership index. -/
theorem redeem_no_linked_user_finalizes (env : Env) (r : RedeemEv) (s : State) (row : NftRow)
    (hsafe : env.is_tweet_safe r.content r.policy = true)
    (huser : env.get_user_by_x_id (toString r.x_id) = none)
    (hconn : env.connectErr = false) (hb : r.tokenId ≤ maxI32)
    (hfilter : s.pg.nftIndex.filter (fun q => q.tokenId = (r.tokenId : Int)) = [row]) :
    ∃ cs : List Call,
      handleRedeemTweet env r s
        = HandlerResult.ok
            { s with pg := { s.pg with
                nftIndex := s.pg.nftIndex.filter (fun q => ¬ q.tokenId = (r.tokenId : Int)),
                redeemedIndex := newRedeemedRow env r row :: s.pg.redeemedIndex,
                users := s.pg.users.map (fun u => if u.id = row.userId then { u with haveBeenRedeemed := u.haveBeenRedeemed + 1 } else u) } }
            cs
      ∧ (∀ content : String, Call.publishTweet content ∉ cs) := by
  refine ⟨_, redeem_success_no_user env r s row hsafe huser hconn hb hfilter, ?_⟩
  intro content
  simp

/-- C6 witness: token 42 under the benign environment (no linked user). -/
theorem redeem_no_linked_user_finalizes_witness :
    ∃ cs : List Call,
      handleRedeemTweet baseEnv redeem42 state42
        = HandlerResult.ok
            { state42 with pg := { state42.pg with
                nftIndex := state42.pg.nftIndex.filter (fun q => ¬ q.tokenId = (42 : Int)),
                redeemedIndex := newRedeemedRow baseEnv redeem42 row42 :: state42.pg.redeemedIndex,
                users := state42.pg.users.map (fun u => if u.id = row42.userId then { u with haveBeenRedeemed := u.haveBeenRedeemed + 1 } else u) } }
            cs
      ∧ (∀ content : String, Call.publishTweet content ∉ cs) :=
  redeem_no_linked_user_finalizes baseEnv redeem42 state42 row42 rfl rfl rfl
    (by decide) (by decide)

/-! ### C5 — publication reference never reaches the RedeemedRecord -/

/-- C5 counterexample: a safe redemption with a linked user whose publication
succeeds with external id `tw123` — yet every persisted `RedeemedIndex` row
carries the empty placeholder, because line 94 of nft.rs shadows the real
`tweet_id` with `""` before the INSERT; the obtained id only reaches the
separate TeleportDB `add_tweet` store. -/
theorem publication_id_missing_from_record_cex :
    handleRedeemTweet userEnv redeem42 state42
      = HandlerResult.ok state42ru
          [Call.safetyCheck "hello" "p", Call.getUserByXId "7",
           Call.publishTweet "hello", Call.addTweet "42" "tw123", Call.pgConnect,
           Call.queryNft 42,
           Call.insertRedeemed { id := "rec1", creatorUserId := "creator1", tokenId := 42,
                                 tweetId := "", twitterUserName := "alice", safeguard := "p",
                                 content := "hello" },
           Call.updateUserCounter "creator1", Call.deleteNft 42]
    ∧ (∀ q ∈ state42ru.pg.redeemedIndex, q.tweetId = "")
    ∧ state42ru.tdb.tweets = [("42", "tw123")] := by
  decide

/-- C5 (amended): for a safe redemption that reaches step 4, the persisted
RedeemedRecord always carries the empty placeholder in its `tweetId` column,
even when a linked user was found and publication returned an id; the
obtained publication id is recorded only in the separate TeleportDB tweets
store via `add_tweet`. -/
theorem redeemed_record_tweet_id_always_empty (env : Env) (r : RedeemEv) (s : State)
    (row : NftRow) (tok tw : String)
    (hsafe : env.is_tweet_safe r.content r.policy = true)
    (huser : env.get_user_by_x_id (toString r.x_id) = some { accessTokens := some tok })
    (htweet : env.raw_tweet r.content = Except.ok tw)
    (hadd : env.addTweetErr = false)
    (hconn : env.connectErr = false) (hb : r.tokenId ≤ maxI32)
    (hfilter : s.pg.nftIndex.filter (fun q => q.tokenId = (r.tokenId : Int)) = [row]) :
    ∃ sF : State, ∃ cs : List Call,
      handleRedeemTweet env r s = HandlerResult.ok sF cs
      ∧ sF.pg.redeemedIndex = newRedeemedRow env r row :: s.pg.redeemedIndex
      ∧ (newRedeemedRow env r row).tweetId = ""
      ∧ (toString r.tokenId, tw) ∈ sF.tdb.tweets := by
  refine ⟨_, _,
    redeem_success_with_user env r s row tok tw hsafe huser htweet hadd hconn hb hfilter,
    rfl, rfl, ?_⟩
  exact List.mem_cons_self _ _

/-- C5 witness: the amended theorem on token 42 with publication id
`tw123`. -/
theorem redeemed_record_tweet_id_always_empty_witness :
    ∃ sF : State, ∃ cs : List Call,
      handleRedeemTweet userEnv redeem42 state42 = HandlerResult.ok sF cs
      ∧ sF.pg.redeemedIndex = newRedeemedRow userEnv redeem42 row42 :: state42.pg.redeemedIndex
      ∧ (newRedeemedRow userEnv redeem42 row42).tweetId = ""
      ∧ ("42", "tw123") ∈ sF.tdb.tweets :=
  redeemed_record_tweet_id_always_empty userEnv redeem42 state42 row42 "at1" "tw123"
    rfl rfl rfl rfl rfl (by decide) (by decide)

/-! ### C10 — owner/creator conflation in the userId column -/

/-- C10: the ownership index keeps the owner and the user id of the creator in the
same `userId` column: a non-burn transfer overwrites it with the recipient
address, and a subsequent redemption of the same token reads it back as
`creatorUserId`, persists it into the RedeemedRecord and increments the
counter of the User row whose id equals the recipient address string — the
redemption is attributed to the recipient, not the original creator. -/
theorem transfer_redirects_attribution (envT envR : Env) (t : TransferEv) (r : RedeemEv)
    (s : State) (row : NftRow)
    (hsame : t.tokenId = r.tokenId) (hb : r.tokenId ≤ maxI32)
    (hf : t.tfrom ≠ zeroAddress) (hto : t.tto ≠ zeroAddress)
    (hconnT : envT.connectErr = false)
    (hsafe : envR.is_tweet_safe r.content r.policy = true)
    (huser : envR.get_user_by_x_id (toString r.x_id) = none)
    (hconnR : envR.connectErr = false)
    (hfilter : s.pg.nftIndex.filter (fun q => q.tokenId = (r.tokenId : Int)) = [row]) :
    ∃ s1 s2 : State, ∃ cs1 cs2 : List Call,
      handleTransfer envT t s = HandlerResult.ok s1 cs1
      ∧ handleRedeemTweet envR r s1 = HandlerResult.ok s2 cs2
      ∧ s2.pg.redeemedIndex
          = { id := envR.freshId, creatorUserId := t.tto, tokenId := (r.tokenId : Int),
              tweetId := "", twitterUserName := row.twitterUserName, safeguard := r.policy,
              content := r.content } :: s.pg.redeemedIndex
      ∧ s2.pg.users = s.pg.users.map (fun u => if u.id = t.tto then { u with haveBeenRedeemed := u.haveBeenRedeemed + 1 } else u) := by
  have htr : handleTransfer envT t s
      = HandlerResult.ok
          { s with pg := { s.pg with
              nftIndex := s.pg.nftIndex.map (fun q => if q.tokenId = (r.tokenId : Int) then { q with userId := t.tto } else q) } }
          [Call.pgConnect, Call.updateNftOwner t.tto (r.tokenId : Int)] := by
    unfold handleTransfer
    rw [hsame]
    simp [parseI32, hb, hconnT, hf, hto]
  have hfil1 := filter_map_update s.pg.nftIndex ((r.tokenId : Int)) t.tto row hfilter
  have hred := redeem_success_no_user envR r
    { s with pg := { s.pg with
        nftIndex := s.pg.nftIndex.map (fun q => if q.tokenId = (r.tokenId : Int) then { q with userId := t.tto } else q) } }
    { row with userId := t.tto } hsafe huser hconnR hb hfil1
  refine ⟨_, _, _, _, htr, hred, ?_, ?_⟩
  · rfl
  · rfl

/-- C10 witness: token 42, minted with `creator1` in the `userId` column, is
transferred to `0xbeef`; its redemption is then attributed to `0xbeef`. -/
theorem transfer_redirects_attribution_witness :
    ∃ s1 s2 : State, ∃ cs1 cs2 : List Call,
      handleTransfer baseEnv { tokenId := 42, tfrom := "0xdead", tto := "0xbeef" } state42
        = HandlerResult.ok s1 cs1
      ∧ handleRedeemTweet baseEnv redeem42 s1 = HandlerResult.ok s2 cs2
      ∧ s2.pg.redeemedIndex
          = { id := "rec1", creatorUserId := "0xbeef", tokenId := (42 : Int),
              tweetId := "", twitterUserName := "alice", safeguard := "p",
              content := "hello" } :: state42.pg.redeemedIndex
      ∧ s2.pg.users = state42.pg.users.map (fun u => if u.id = "0xbeef" then { u with haveBeenRedeemed := u.haveBeenRedeemed + 1 } else u) :=
  transfer_redirects_attribution baseEnv baseEnv
    { tokenId := 42, tfrom := "0xdead", tto := "0xbeef" } redeem42 state42 row42
    rfl (by decide) (by decide) (by decide) rfl rfl rfl rfl (by decide)

end Teleport
